import Mathlib

/-!
Verification of the CSV ingestion / spot estimation / aggregation / report
pipeline of `scripts/option_pricing_analyzer.py` (class `OptionPricingAnalyzer`).

Numbers are modelled as rationals (`ℚ`); optional values (`None` in Python)
as `Option ℚ`; CSV rows as lists of strings (the option-chain format) or as
records of named string fields (the portfolio format, read via `DictReader`).
-/

namespace BSM

/-! ## String-to-number parsing primitives -/

/-- Numeric value of a decimal digit character. -/
def digitVal (c : Char) : ℕ := c.toNat - 48

/-- Value of a list of decimal digit characters read left to right. -/
def natOfDigits (cs : List Char) : ℕ :=
  cs.foldl (fun a c => 10 * a + digitVal c) 0

/-- Parse an unsigned decimal literal: digits, optionally followed by a dot
and further digits; at least one digit overall. -/
def parseFloatCore (cs : List Char) : Option ℚ :=
  let ip := cs.takeWhile Char.isDigit
  let rest := cs.dropWhile Char.isDigit
  match rest with
  | [] => if ip = [] then none else some ((natOfDigits ip : ℚ))
  | '.' :: fp =>
      if fp.all Char.isDigit ∧ (ip ≠ [] ∨ fp ≠ []) then
        some ((natOfDigits ip : ℚ) + (natOfDigits fp : ℚ) / ((10 : ℚ) ^ fp.length))
      else none
  | _ => none

/-- Python `str.strip()` / the whitespace stripping of `float()`:
drop whitespace from both ends. -/
def trimChars (s : String) : String :=
  ((s.toList.dropWhile Char.isWhitespace).reverse.dropWhile
    Char.isWhitespace).reverse.asString

/-- Models Python `float(s)` on plain signed decimal literals: surrounding
whitespace is tolerated, an optional sign precedes the digits. (Exponent
and special forms such as `inf`/`nan` never occur in the analyzed CSVs and
are not modelled.) Returns `none` where `float` raises `ValueError`. -/
def parseFloat (s : String) : Option ℚ :=
  match (trimChars s).toList with
  | '-' :: t => (parseFloatCore t).map (fun q => -q)
  | '+' :: t => parseFloatCore t
  | cs => parseFloatCore cs

/-- Python `str.lower()` on the ASCII option-type tags: lowercase each
character. -/
def lowerString (s : String) : String :=
  (s.toList.map Char.toLower).asString

/-- Remove every occurrence of the given characters, as chained Python
`str.replace(c, '')` calls. -/
def removeChars (s : String) (bad : List Char) : String :=
  (s.toList.filter (fun c => ¬ c ∈ bad)).asString

/-- `OptionPricingAnalyzer._parse_price`: `None` for empty or `"-"` input,
otherwise strip commas/quotes and surrounding whitespace and parse,
`None` on failure. -/
def parse_price (s : String) : Option ℚ :=
  if s = "" ∨ s = "-" then none
  else
    let clean := trimChars (removeChars s [',', '"'])
    if clean = "" then none else parseFloat clean

/-- `OptionPricingAnalyzer._parse_percentage`: like `_parse_price` but also
strips `%` and divides the parsed value by 100. -/
def parse_percentage (s : String) : Option ℚ :=
  if s = "" ∨ s = "-" then none
  else
    let clean := trimChars (removeChars s ['%', ',', '"'])
    if clean = "" then none else (parseFloat clean).map (fun q => q / 100)

/-- Python `x or d` where `x` is an optional float: falls back to the
default both when `x` is `None` and when it is `0.0` (both are falsy). -/
def pyOrQ (x : Option ℚ) (d : ℚ) : ℚ :=
  match x with
  | none => d
  | some v => if v = 0 then d else v

/-! ## Data model -/

/-- A canonical option record as produced by the two parsers (the Python
dicts). `position` and `spot_price` are only present in portfolio-format
records; `market_price` is `none` in portfolio records. -/
structure RawOption where
  symbol : String
  strike : ℚ
  option_type : String
  market_price : Option ℚ
  implied_volatility : ℚ
  expiry_days : ℚ
  position : Option ℚ
  spot_price : Option ℚ
deriving DecidableEq, Repr

/-- Result of one oracle (BSM executable) invocation, as returned by
`calculate_option_price` / `_default_option_result`. -/
structure PricingResult where
  theoretical_price : ℚ
  delta : ℚ
  gamma : ℚ
  vega : ℚ
  theta : ℚ
  calculation_success : Bool
deriving DecidableEq, Repr

/-! ## Option-chain parser (`parse_option_chain_csv`) -/

/-- Strike extraction from an option-chain row: column 11 with commas and
quotes removed; `none` when blank, `"-"`, or not a float (the code skips
the row in each of these cases). -/
def parse_strike_field (row : List String) : Option ℚ :=
  let s := removeChars (row.getD 11 "") [',', '"']
  if s = "" ∨ s = "-" then none else parseFloat s

/-- The call-side emission of one option-chain row: a call record exactly
when the call LTP parsed and is positive. -/
def chain_call (e : ℚ) (strike : ℚ) (ltp iv : Option ℚ) : List RawOption :=
  match ltp with
  | some v =>
      if 0 < v then
        [{ symbol := "NIFTY", strike := strike, option_type := "call",
           market_price := some v, implied_volatility := pyOrQ iv (1/5),
           expiry_days := e, position := none, spot_price := none }]
      else []
  | none => []

/-- The put-side emission of one option-chain row. -/
def chain_put (e : ℚ) (strike : ℚ) (ltp iv : Option ℚ) : List RawOption :=
  match ltp with
  | some v =>
      if 0 < v then
        [{ symbol := "NIFTY", strike := strike, option_type := "put",
           market_price := some v, implied_volatility := pyOrQ iv (1/5),
           expiry_days := e, position := none, spot_price := none }]
      else []
  | none => []

/-- Records contributed by a single option-chain row. `e` is the estimated
expiry in days (`_estimate_expiry_days`, a function of the file name and
the current date, hence a parameter here). Rows with fewer than 23 columns
and rows whose strike field is blank, `"-"`, or unparsable yield nothing. -/
def parse_chain_row (e : ℚ) (row : List String) : List RawOption :=
  if row.length < 23 then []
  else
    match parse_strike_field row with
    | none => []
    | some strike =>
        chain_call e strike (parse_price (row.getD 5 "")) (parse_percentage (row.getD 4 ""))
          ++ chain_put e strike (parse_price (row.getD 17 "")) (parse_percentage (row.getD 18 ""))

/-- `parse_option_chain_csv` over the data rows (header already consumed). -/
def parse_option_chain_csv (e : ℚ) (rows : List (List String)) : List RawOption :=
  (rows.map (parse_chain_row e)).flatten

/-! ## Portfolio parser (`parse_portfolio_csv`) -/

/-- One row of the portfolio CSV as seen through `csv.DictReader`. -/
structure PortfolioRow where
  symbol : String
  position : String
  spot : String
  strike : String
  expiry : String
  volatility : String
  option_type : String
deriving DecidableEq, Repr

/-- One portfolio row parsed: `none` when any `float(...)` conversion fails
(the code skips the row with a warning). Expiry is converted from years to
days (`× 365`); `option_type` is lowercased; `market_price` is set to
`None`. -/
def parse_portfolio_row (r : PortfolioRow) : Option RawOption := do
  let pos ← parseFloat r.position
  let spot ← parseFloat r.spot
  let strike ← parseFloat r.strike
  let expiry ← parseFloat r.expiry
  let vol ← parseFloat r.volatility
  pure { symbol := r.symbol, strike := strike,
         option_type := lowerString r.option_type,
         market_price := none, implied_volatility := vol,
         expiry_days := expiry * 365,
         position := some pos, spot_price := some spot }

/-- `parse_portfolio_csv` over the data rows: best-effort row-by-row. -/
def parse_portfolio_csv (rows : List PortfolioRow) : List RawOption :=
  rows.filterMap parse_portfolio_row

/-! ## Spot estimation (`estimate_spot_price`) -/

/-- `estimate_spot_price`: 23000.0 for an empty sequence; 23000.0 again when
there is no call or no put among the records; otherwise the mean of all
strikes. -/
def estimate_spot_price (options : List RawOption) : ℚ :=
  if options = [] then 23000
  else
    let call_strikes := options.filter (fun o => o.option_type = "call")
    let put_strikes := options.filter (fun o => o.option_type = "put")
    if call_strikes = [] ∨ put_strikes = [] then 23000
    else
      let all_strikes := options.map (fun o => o.strike)
      if all_strikes = [] then 23000
      else all_strikes.sum / (all_strikes.length : ℚ)

/-! ## Per-option result construction (`analyze_csv`, lines 281–297) -/

/-- The joined per-option record built in the `analyze_csv` loop: option
fields, oracle fields, and the derived difference fields. The two derived
fields are set exactly when `market_price` is present; `price_difference_pct`
falls back to 0 when `theoretical_price` is not positive. -/
structure OptionResult where
  symbol : String
  option_type : String
  strike : ℚ
  spot_price : ℚ
  expiry_days : ℚ
  implied_volatility : ℚ
  market_price : Option ℚ
  position : ℚ
  theoretical_price : ℚ
  delta : ℚ
  gamma : ℚ
  vega : ℚ
  theta : ℚ
  calculation_success : Bool
  price_difference : Option ℚ
  price_difference_pct : Option ℚ
deriving DecidableEq, Repr

/-- Build one `OptionResult` from an option record, the resolved spot and
the oracle's `PricingResult`, following `analyze_csv` lines 281–297:
`position` defaults to 1 when the record has none, and the derived
difference fields exist exactly when `market_price` is not `None`. -/
def mkResult (opt : RawOption) (spot : ℚ) (pr : PricingResult) : OptionResult :=
  { symbol := opt.symbol
    option_type := opt.option_type
    strike := opt.strike
    spot_price := spot
    expiry_days := opt.expiry_days
    implied_volatility := opt.implied_volatility
    market_price := opt.market_price
    position := opt.position.getD 1
    theoretical_price := pr.theoretical_price
    delta := pr.delta
    gamma := pr.gamma
    vega := pr.vega
    theta := pr.theta
    calculation_success := pr.calculation_success
    price_difference := opt.market_price.map (fun m => m - pr.theoretical_price)
    price_difference_pct := opt.market_price.map (fun m =>
      if 0 < pr.theoretical_price then
        (m - pr.theoretical_price) / pr.theoretical_price * 100
      else 0) }

/-- The result sequence of one analysis run: each option is sent to the
oracle in input order and joined with its `PricingResult`. -/
def analyze_results (options : List RawOption) (spot : ℚ)
    (oracle : RawOption → PricingResult) : List OptionResult :=
  options.map (fun o => mkResult o spot (oracle o))

/-! ## Portfolio summary (`_generate_summary`) -/

/-- The `portfolio_metrics` sub-dict of the summary. -/
structure PortfolioMetrics where
  total_value : ℚ
  net_delta : ℚ
  net_gamma : ℚ
  net_vega : ℚ
  net_theta : ℚ
  delta_adjusted_value : ℚ
deriving DecidableEq, Repr

/-- The `market_analysis` sub-dict of the summary. -/
structure MarketAnalysis where
  options_with_market_prices : ℕ
  avg_price_difference_pct : ℚ
  overpriced_count : ℕ
  underpriced_count : ℕ
deriving DecidableEq, Repr

/-- The `risk_metrics` sub-dict of the summary. -/
structure RiskMetrics where
  portfolio_delta_risk : ℚ
  portfolio_gamma_risk : ℚ
  portfolio_vega_risk : ℚ
  portfolio_theta_decay : ℚ
deriving DecidableEq, Repr

/-- The full `PortfolioSummary`. -/
structure PortfolioSummary where
  portfolio_metrics : PortfolioMetrics
  market_analysis : MarketAnalysis
  risk_metrics : RiskMetrics
deriving DecidableEq, Repr

/-- `_generate_summary`: the error dict `{'error': 'No successful
calculations'}` when no result has `calculation_success`, otherwise sums
over the successful subset only and mispricing statistics over the
successful records carrying a market price. In the pipeline every such
record also carries both difference fields (set together with
`market_price` in `analyze_csv`), so the `getD 0` defaults below are never
exercised on pipeline data (Python reads the keys directly and would raise
`KeyError` on a record outside that invariant). -/
def generate_summary (results : List OptionResult) (spot : ℚ) :
    Except String PortfolioSummary :=
  let successful := results.filter (fun r => r.calculation_success)
  if successful = [] then Except.error "No successful calculations"
  else
    let total_delta := (successful.map (fun r => r.delta * r.position)).sum
    let total_gamma := (successful.map (fun r => r.gamma * r.position)).sum
    let total_vega := (successful.map (fun r => r.vega * r.position)).sum
    let total_theta := (successful.map (fun r => r.theta * r.position)).sum
    let portfolio_value := (successful.map (fun r => r.theoretical_price * r.position)).sum
    let mispriced := successful.filter (fun r => r.market_price.isSome)
    let avg_price_diff :=
      if mispriced = [] then 0
      else (mispriced.map (fun r => |r.price_difference_pct.getD 0|)).sum
             / (mispriced.length : ℚ)
    Except.ok
      { portfolio_metrics :=
          { total_value := portfolio_value
            net_delta := total_delta
            net_gamma := total_gamma
            net_vega := total_vega
            net_theta := total_theta
            delta_adjusted_value := portfolio_value + total_delta * spot * (1/100) }
        market_analysis :=
          { options_with_market_prices := mispriced.length
            avg_price_difference_pct := avg_price_diff
            overpriced_count := (mispriced.filter (fun r => 0 < r.price_difference.getD 0)).length
            underpriced_count := (mispriced.filter (fun r => r.price_difference.getD 0 < 0)).length }
        risk_metrics :=
          { portfolio_delta_risk := |total_delta| * spot * (1/100)
            portfolio_gamma_risk := |total_gamma| * spot * spot * (1/10000)
            portfolio_vega_risk := |total_vega| * (1/100)
            portfolio_theta_decay := total_theta } }

/-! ## Concrete fixtures used by counterexamples and witnesses -/

/-- A call record with strike 90 (chain-format shape). -/
def c90 : RawOption :=
  { symbol := "NIFTY", strike := 90, option_type := "call",
    market_price := some 5, implied_volatility := 1/5, expiry_days := 30,
    position := none, spot_price := none }

/-- A call record with strike 100. -/
def c100 : RawOption := { c90 with strike := 100 }

/-- A put record with strike 110. -/
def p110 : RawOption := { c90 with strike := 110, option_type := "put" }

/-- A pricing result with `theoretical_price = 0` and `success = true`. -/
def pr_zero : PricingResult :=
  { theoretical_price := 0, delta := 0, gamma := 0, vega := 0, theta := 0,
    calculation_success := true }

/-- A successful result with `delta = 0.5`, `position = 2`, no market price. -/
def okRes : OptionResult :=
  { symbol := "NIFTY", option_type := "call", strike := 100, spot_price := 100,
    expiry_days := 30, implied_volatility := 1/5, market_price := none,
    position := 2, theoretical_price := 4, delta := 1/2, gamma := 0, vega := 0,
    theta := 0, calculation_success := true, price_difference := none,
    price_difference_pct := none }

/-- A failed result with `position = 10` and nonzero Greeks. -/
def failRes : OptionResult :=
  { symbol := "NIFTY", option_type := "put", strike := 100, spot_price := 100,
    expiry_days := 30, implied_volatility := 1/5, market_price := some 3,
    position := 10, theoretical_price := 7, delta := 7, gamma := 7, vega := 7,
    theta := 7, calculation_success := false, price_difference := some (-4),
    price_difference_pct := some (-400/7) }

/-! ## Claims about aggregation (C1, C7) -/

/-- C1: in the portfolio summary, the net Greek totals and the portfolio
value are the sums of `greek_i * position_i` (resp.
`theoretical_price_i * position_i`) taken only over the results with
`calculation_success = true`; failed results contribute nothing to any
total regardless of their position. -/
theorem C1_sums_over_successful_only (results : List OptionResult) (spot : ℚ)
    (h : results.filter (fun r => r.calculation_success) ≠ []) :
    ∃ s, generate_summary results spot = Except.ok s ∧
      s.portfolio_metrics.net_delta =
        ((results.filter (fun r => r.calculation_success)).map
          (fun r => r.delta * r.position)).sum ∧
      s.portfolio_metrics.net_gamma =
        ((results.filter (fun r => r.calculation_success)).map
          (fun r => r.gamma * r.position)).sum ∧
      s.portfolio_metrics.net_vega =
        ((results.filter (fun r => r.calculation_success)).map
          (fun r => r.vega * r.position)).sum ∧
      s.portfolio_metrics.net_theta =
        ((results.filter (fun r => r.calculation_success)).map
          (fun r => r.theta * r.position)).sum ∧
      s.portfolio_metrics.total_value =
        ((results.filter (fun r => r.calculation_success)).map
          (fun r => r.theoretical_price * r.position)).sum := by
  unfold generate_summary
  rw [if_neg h]
  exact ⟨_, rfl, rfl, rfl, rfl, rfl, rfl⟩

/-- C1 witness: one successful result with `delta = 0.5`, `position = 2`
together with one failed result of `position = 10` gives net delta
exactly 1. -/
theorem C1_sums_over_successful_only_w :
    ∃ s, generate_summary [okRes, failRes] 100 = Except.ok s ∧
      s.portfolio_metrics.net_delta = 1 := by
  obtain ⟨s, hs, hd, -, -, -, -⟩ :=
    C1_sums_over_successful_only [okRes, failRes] 100 (by decide)
  refine ⟨s, hs, ?_⟩
  rw [hd]; norm_num [okRes, failRes]

/-- C7: if no result has `success = true`, the summary is the explicit
error marker; if at least one is successful but none of the successful
results carries a market price, the summary is produced with
`avg_price_difference_pct = 0`. -/
theorem C7_degenerate_summaries (results : List OptionResult) (spot : ℚ) :
    (results.filter (fun r => r.calculation_success) = [] →
       generate_summary results spot = Except.error "No successful calculations") ∧
    (results.filter (fun r => r.calculation_success) ≠ [] →
     (results.filter (fun r => r.calculation_success)).filter
       (fun r => r.market_price.isSome) = [] →
       ∃ s, generate_summary results spot = Except.ok s ∧
         s.market_analysis.avg_price_difference_pct = 0) := by
  constructor
  · intro h
    unfold generate_summary
    rw [if_pos h]
  · intro h hm
    unfold generate_summary
    rw [if_neg h]
    exact ⟨_, rfl, by simp [hm]⟩

/-- C7 witness: a lone failed result gives the error marker, and a lone
successful result without a market price gives a summary whose average
price difference is 0. -/
theorem C7_degenerate_summaries_w :
    generate_summary [failRes] 100 = Except.error "No successful calculations" ∧
    ∃ s, generate_summary [okRes] 100 = Except.ok s ∧
      s.market_analysis.avg_price_difference_pct = 0 :=
  ⟨(C7_degenerate_summaries [failRes] 100).1 (by decide),
   (C7_degenerate_summaries [okRes] 100).2 (by decide) (by decide)⟩

/-! ## Claims about spot estimation (C2) -/

/-- C2 counterexample: a non-empty sequence holding a single call has mean
strike 90, but `estimate_spot_price` returns the fallback 23000 because no
put is present — refuting "every non-empty Option sequence returns the
arithmetic mean of all parsed strikes". -/
theorem C2_nonempty_mean_cex :
    [c90] ≠ [] ∧
    estimate_spot_price [c90] = 23000 ∧
    ([c90].map (fun o => o.strike)).sum / (([c90].length : ℕ) : ℚ) = 90 ∧
    (23000 : ℚ) ≠ 90 := by
  refine ⟨by decide, ?_, by norm_num [c90], by norm_num⟩
  norm_num [estimate_spot_price, c90]
  decide

/-- C2 amended: the empty sequence gives the fallback 23000; a sequence
missing calls entirely or puts entirely also gives 23000; a sequence with
at least one call and at least one put gives the arithmetic mean of all
strikes. -/
theorem C2_spot_estimation_cases (options : List RawOption) :
    (options = [] → estimate_spot_price options = 23000) ∧
    ((options.filter (fun o => o.option_type = "call") = [] ∨
      options.filter (fun o => o.option_type = "put") = []) →
       estimate_spot_price options = 23000) ∧
    (options.filter (fun o => o.option_type = "call") ≠ [] →
     options.filter (fun o => o.option_type = "put") ≠ [] →
       estimate_spot_price options =
         (options.map (fun o => o.strike)).sum / ((options.length : ℕ) : ℚ)) := by
  refine ⟨fun h => by simp [estimate_spot_price, h], fun h => ?_, fun hc hp => ?_⟩
  · unfold estimate_spot_price
    rcases eq_or_ne options [] with ho | ho
    · rw [if_pos ho]
    · rw [if_neg ho, if_pos h]
  · have ho : options ≠ [] := fun h => hc (by simp [h])
    have hm : options.map (fun o => o.strike) ≠ [] := by simpa using ho
    unfold estimate_spot_price
    rw [if_neg ho, if_neg (by simp [hc, hp]), if_neg hm, List.length_map]

/-- C2 witness: strikes `[90, 100, 110]` (two calls, one put) estimate the
spot as their mean, 100. -/
theorem C2_spot_estimation_cases_w :
    estimate_spot_price [c90, c100, p110] = 100 := by
  have h := (C2_spot_estimation_cases [c90, c100, p110]).2.2 (by decide) (by decide)
  rw [h]; norm_num [c90, c100, p110]

/-! ## Claims about the derived difference fields (C3) -/

/-- C3 counterexample: with `market_price` present and
`theoretical_price = 0`, the code still sets `price_difference` (to the
market price) and sets `price_difference_pct` to 0 — neither is absent,
refuting "both absent whenever market_price is absent or
theoretical_price == 0". -/
theorem C3_zero_price_fields_cex :
    c90.market_price = some 5 ∧ pr_zero.theoretical_price = 0 ∧
    (mkResult c90 100 pr_zero).price_difference = some 5 ∧
    (mkResult c90 100 pr_zero).price_difference_pct = some 0 := by
  norm_num [mkResult, c90, pr_zero]

/-- C3 amended: the derived fields are both absent exactly when
`market_price` is absent; whenever `market_price = m` is present,
`price_difference = m - theoretical_price` (even at
`theoretical_price = 0`), and `price_difference_pct` is
`price_difference / theoretical_price * 100` when `theoretical_price` is
positive and 0 otherwise. -/
theorem C3_difference_fields (opt : RawOption) (spot : ℚ) (pr : PricingResult) :
    (opt.market_price = none →
       (mkResult opt spot pr).price_difference = none ∧
       (mkResult opt spot pr).price_difference_pct = none) ∧
    (∀ m, opt.market_price = some m →
       (mkResult opt spot pr).price_difference = some (m - pr.theoretical_price) ∧
       (mkResult opt spot pr).price_difference_pct =
         some (if 0 < pr.theoretical_price
               then (m - pr.theoretical_price) / pr.theoretical_price * 100
               else 0)) := by
  constructor
  · intro h; simp [mkResult, h]
  · intro m h; simp [mkResult, h]

/-- C3 witness: the amended claim evaluated at a concrete record with
`market_price = 5` and a zero theoretical price. -/
theorem C3_difference_fields_w :
    (mkResult c90 100 pr_zero).price_difference =
      some ((5 : ℚ) - pr_zero.theoretical_price) ∧
    (mkResult c90 100 pr_zero).price_difference_pct =
      some (if 0 < pr_zero.theoretical_price
            then ((5 : ℚ) - pr_zero.theoretical_price) / pr_zero.theoretical_price * 100
            else 0) :=
  (C3_difference_fields c90 100 pr_zero).2 5 rfl

/-! ## Inversion lemmas for the parsers -/

/-- The one call record emitted by a chain row with strike `k` and call
LTP `v`. -/
def chainCallRec (e k v : ℚ) (iv : Option ℚ) : RawOption :=
  { symbol := "NIFTY", strike := k, option_type := "call",
    market_price := some v, implied_volatility := pyOrQ iv (1/5),
    expiry_days := e, position := none, spot_price := none }

/-- The one put record emitted by a chain row with strike `k` and put
LTP `v`. -/
def chainPutRec (e k v : ℚ) (iv : Option ℚ) : RawOption :=
  { symbol := "NIFTY", strike := k, option_type := "put",
    market_price := some v, implied_volatility := pyOrQ iv (1/5),
    expiry_days := e, position := none, spot_price := none }

/-- Inversion: a member of `parse_chain_row` is either the call record of
a positive parsed call LTP or the put record of a positive parsed put
LTP, for the row's parsed strike. -/
theorem mem_parse_chain_row {e : ℚ} {row : List String} {o : RawOption}
    (ho : o ∈ parse_chain_row e row) :
    ∃ k, parse_strike_field row = some k ∧
      ((∃ v, parse_price (row.getD 5 "") = some v ∧ 0 < v ∧
          o = chainCallRec e k v (parse_percentage (row.getD 4 ""))) ∨
       (∃ v, parse_price (row.getD 17 "") = some v ∧ 0 < v ∧
          o = chainPutRec e k v (parse_percentage (row.getD 18 "")))) := by
  unfold parse_chain_row at ho
  split at ho
  · exact absurd ho (List.not_mem_nil o)
  · split at ho
    · exact absurd ho (List.not_mem_nil o)
    · rename_i k hk
      refine ⟨k, hk, ?_⟩
      rw [List.mem_append] at ho
      rcases ho with ho | ho
      · unfold chain_call at ho
        split at ho
        · rename_i v heq
          split at ho
          · rename_i hv
            rw [List.mem_singleton] at ho
            exact Or.inl ⟨v, heq, hv, ho⟩
          · exact absurd ho (List.not_mem_nil o)
        · exact absurd ho (List.not_mem_nil o)
      · unfold chain_put at ho
        split at ho
        · rename_i v heq
          split at ho
          · rename_i hv
            rw [List.mem_singleton] at ho
            exact Or.inr ⟨v, heq, hv, ho⟩
          · exact absurd ho (List.not_mem_nil o)
        · exact absurd ho (List.not_mem_nil o)

/-- Inversion for one portfolio row: a produced record has no market price
and carries the lowercased source option type. -/
theorem parse_portfolio_row_inv {r : PortfolioRow} {o : RawOption}
    (h : parse_portfolio_row r = some o) :
    o.market_price = none ∧ o.option_type = lowerString r.option_type := by
  unfold parse_portfolio_row at h
  rcases h1 : parseFloat r.position with _ | pos <;> rw [h1] at h
  · exact Option.noConfusion h
  rcases h2 : parseFloat r.spot with _ | spot <;> rw [h2] at h
  · exact Option.noConfusion h
  rcases h3 : parseFloat r.strike with _ | strike <;> rw [h3] at h
  · exact Option.noConfusion h
  rcases h4 : parseFloat r.expiry with _ | expiry <;> rw [h4] at h
  · exact Option.noConfusion h
  rcases h5 : parseFloat r.volatility with _ | vol <;> rw [h5] at h
  · exact Option.noConfusion h
  cases h
  exact ⟨rfl, rfl⟩

/-- Existential membership in the call-side emission. -/
theorem exists_mem_chain_call (e k : ℚ) (ltp iv : Option ℚ) (p : RawOption → Prop) :
    (∃ o ∈ chain_call e k ltp iv, p o) ↔
      ∃ v, ltp = some v ∧ 0 < v ∧ p (chainCallRec e k v iv) := by
  unfold chain_call
  cases ltp with
  | none => simp
  | some v => by_cases hv : 0 < v <;> simp [hv, chainCallRec]

/-- Existential membership in the put-side emission. -/
theorem exists_mem_chain_put (e k : ℚ) (ltp iv : Option ℚ) (p : RawOption → Prop) :
    (∃ o ∈ chain_put e k ltp iv, p o) ↔
      ∃ v, ltp = some v ∧ 0 < v ∧ p (chainPutRec e k v iv) := by
  unfold chain_put
  cases ltp with
  | none => simp
  | some v => by_cases hv : 0 < v <;> simp [hv, chainPutRec]

/-! ## Claims about the option-chain parser (C4, C5, C6) -/

/-- C4: for a chain row with at least 23 columns and a parseable strike, a
call record is emitted iff the column-5 LTP parses positive, and
independently a put record is emitted iff the column-17 LTP parses
positive; the row yields at most two records, and exactly two sharing the
parsed strike when both LTPs are positive. -/
theorem C4_ltp_gated_emission (e : ℚ) (row : List String) (k : ℚ)
    (hlen : 23 ≤ row.length) (hk : parse_strike_field row = some k) :
    ((∃ o ∈ parse_chain_row e row, o.option_type = "call") ↔
       (∃ v, parse_price (row.getD 5 "") = some v ∧ 0 < v)) ∧
    ((∃ o ∈ parse_chain_row e row, o.option_type = "put") ↔
       (∃ v, parse_price (row.getD 17 "") = some v ∧ 0 < v)) ∧
    (parse_chain_row e row).length ≤ 2 ∧
    (∀ v w, parse_price (row.getD 5 "") = some v → 0 < v →
       parse_price (row.getD 17 "") = some w → 0 < w →
       (parse_chain_row e row).length = 2 ∧
       ∀ o ∈ parse_chain_row e row, o.strike = k) := by
  have hpc : ¬ ("put" : String) = "call" := by decide
  have hcp : ¬ ("call" : String) = "put" := by decide
  have hrow : parse_chain_row e row =
      chain_call e k (parse_price (row.getD 5 "")) (parse_percentage (row.getD 4 ""))
        ++ chain_put e k (parse_price (row.getD 17 "")) (parse_percentage (row.getD 18 "")) := by
    unfold parse_chain_row
    rw [if_neg (by omega), hk]
  rw [hrow]
  generalize parse_percentage (row.getD 4 "") = iv5
  generalize parse_percentage (row.getD 18 "") = iv17
  generalize parse_price (row.getD 5 "") = q5
  generalize parse_price (row.getD 17 "") = q17
  clear hrow hk hlen
  rcases q5 with _ | v <;> rcases q17 with _ | w
  · simp [chain_call, chain_put]
  · by_cases hw : 0 < w <;>
      simp [chain_call, chain_put, hw, hpc, hcp]
  · by_cases hv : 0 < v <;>
      simp [chain_call, chain_put, hv, hpc, hcp]
  · by_cases hv : 0 < v <;> by_cases hw : 0 < w <;>
      (simp [chain_call, chain_put, hv, hw, hpc, hcp]; try exact le_of_not_lt hw)

/-- A 23-column chain row fixture with strike 100, call LTP 100 (IV 10)
and put LTP 50 (IV 12). -/
def row23 : List String :=
  ["", "", "", "", "10", "100", "", "", "", "", "", "100",
   "", "", "", "", "", "50", "12", "", "", "", ""]

/-- C4 witness: the fixture row emits exactly two options, both with
strike 100. -/
theorem C4_ltp_gated_emission_w :
    (parse_chain_row 30 row23).length = 2 ∧
    ∀ o ∈ parse_chain_row 30 row23, o.strike = ((100 : ℕ) : ℚ) :=
  (C4_ltp_gated_emission 30 row23 ((100 : ℕ) : ℚ) (by decide) rfl).2.2.2
    ((100 : ℕ) : ℚ) ((50 : ℕ) : ℚ) rfl (by decide) rfl (by decide)

/-- C5: a chain row with fewer than 23 columns, or whose strike field
(column 11 after stripping commas and quotes) is blank or `"-"`, yields
zero records, and the parse of a sequence starting with such a row equals
the parse of the remaining rows. -/
theorem C5_malformed_rows_skipped (e : ℚ) (row : List String)
    (rows : List (List String))
    (h : row.length < 23 ∨ removeChars (row.getD 11 "") [',', '"'] = "" ∨
         removeChars (row.getD 11 "") [',', '"'] = "-") :
    parse_chain_row e row = [] ∧
    parse_option_chain_csv e (row :: rows) = parse_option_chain_csv e rows := by
  have h1 : parse_chain_row e row = [] := by
    unfold parse_chain_row
    rcases h with h | h
    · rw [if_pos h]
    · rcases Nat.lt_or_ge row.length 23 with hl | hl
      · rw [if_pos hl]
      · rw [if_neg (by omega)]
        have hs : parse_strike_field row = none := by
          simp only [parse_strike_field]
          rw [if_pos h]
        rw [hs]
  exact ⟨h1, by simp [parse_option_chain_csv, h1]⟩

/-- A 23-column row whose strike field is `"-"`. -/
def rowDash : List String :=
  ["", "", "", "", "10", "100", "", "", "", "", "", "-",
   "", "", "", "", "", "50", "12", "", "", "", ""]

/-- C5 witness: a 1-column row and a 23-column row with strike `"-"` are
both skipped, and skipping commutes with parsing the remaining rows. -/
theorem C5_malformed_rows_skipped_w :
    parse_chain_row 30 ["x"] = [] ∧
    parse_option_chain_csv 30 [["x"], rowDash] = parse_option_chain_csv 30 [rowDash] ∧
    parse_chain_row 30 rowDash = [] :=
  ⟨(C5_malformed_rows_skipped 30 ["x"] [rowDash] (Or.inl (by decide))).1,
   (C5_malformed_rows_skipped 30 ["x"] [rowDash] (Or.inl (by decide))).2,
   (C5_malformed_rows_skipped 30 rowDash [] (Or.inr (Or.inr (by decide)))).1⟩

/-- C6 counterexample fixture: a 23-column row whose call IV field is the
supplied string `"0"` and whose call LTP is positive. -/
def rowIV0 : List String :=
  ["", "", "", "", "0", "10", "", "", "", "", "", "100",
   "", "", "", "", "", "", "", "", "", "", ""]

/-- C6 counterexample: the source supplies an implied volatility (`"0"`,
which parses to 0), yet the emitted option carries the default 0.20 —
refuting "defaults to 0.20 if and only if the source omits it" (the
code's `call_iv or 0.20` also replaces a supplied falsy 0.0). -/
theorem C6_supplied_zero_iv_cex :
    parse_percentage (rowIV0.getD 4 "") = some 0 ∧
    (1/5 : ℚ) ≠ 0 ∧
    ∃ o ∈ parse_chain_row 30 rowIV0,
      o.option_type = "call" ∧ o.implied_volatility = 1/5 := by
  refine ⟨?_, by norm_num, ?_⟩
  · have h1 : parse_percentage (rowIV0.getD 4 "") = some (((0 : ℕ) : ℚ) / 100) := rfl
    rw [h1]; norm_num
  · have hrow : parse_chain_row 30 rowIV0 =
        [chainCallRec 30 ((100 : ℕ) : ℚ) ((10 : ℕ) : ℚ) (some (((0 : ℕ) : ℚ) / 100))] := rfl
    rw [hrow]
    refine ⟨_, List.mem_singleton.mpr rfl, rfl, ?_⟩
    show pyOrQ (some (((0 : ℕ) : ℚ) / 100)) (1/5) = 1/5
    norm_num [pyOrQ]

/-- C6 amended: an emitted option's `implied_volatility` equals the parsed
IV from its side's IV column when that IV is supplied and nonzero, and is
the default 0.20 when the IV is missing or parses to 0. -/
theorem C6_iv_default (e : ℚ) (row : List String) (o : RawOption)
    (ho : o ∈ parse_chain_row e row) :
    (o.option_type = "call" →
       ((parse_percentage (row.getD 4 "") = none ∨
         parse_percentage (row.getD 4 "") = some 0) →
          o.implied_volatility = 1/5) ∧
       (∀ v, parse_percentage (row.getD 4 "") = some v → v ≠ 0 →
          o.implied_volatility = v)) ∧
    (o.option_type = "put" →
       ((parse_percentage (row.getD 18 "") = none ∨
         parse_percentage (row.getD 18 "") = some 0) →
          o.implied_volatility = 1/5) ∧
       (∀ v, parse_percentage (row.getD 18 "") = some v → v ≠ 0 →
          o.implied_volatility = v)) := by
  obtain ⟨k, -, hco | hpo⟩ := mem_parse_chain_row ho
  · obtain ⟨v, -, -, rfl⟩ := hco
    clear ho
    generalize parse_percentage (row.getD 4 "") = iv4
    refine ⟨fun _ => ⟨?_, ?_⟩,
      fun hput => absurd (show ("call" : String) = "put" from hput) (by decide)⟩
    · rintro (rfl | rfl) <;> simp [chainCallRec, pyOrQ]
    · rintro w rfl hw0
      simp [chainCallRec, pyOrQ, hw0]
  · obtain ⟨v, -, -, rfl⟩ := hpo
    clear ho
    generalize parse_percentage (row.getD 18 "") = iv18
    refine ⟨fun hcall => absurd (show ("put" : String) = "call" from hcall) (by decide),
      fun _ => ⟨?_, ?_⟩⟩
    · rintro (rfl | rfl) <;> simp [chainPutRec, pyOrQ]
    · rintro w rfl hw0
      simp [chainPutRec, pyOrQ, hw0]

/-- C6 witness: on the two-sided fixture row, the call side's supplied IV
`"10"` (parsed 0.10) is kept, exercising the nonzero-supplied case of the
amended claim. -/
theorem C6_iv_default_w :
    (chainCallRec 30 ((100 : ℕ) : ℚ) ((100 : ℕ) : ℚ)
        (some (((10 : ℕ) : ℚ) / 100))).implied_volatility = ((10 : ℕ) : ℚ) / 100 := by
  have hm : chainCallRec 30 ((100 : ℕ) : ℚ) ((100 : ℕ) : ℚ)
      (some (((10 : ℕ) : ℚ) / 100)) ∈ parse_chain_row 30 row23 := by
    have hrow : parse_chain_row 30 row23 =
        [chainCallRec 30 ((100 : ℕ) : ℚ) ((100 : ℕ) : ℚ) (some (((10 : ℕ) : ℚ) / 100)),
         chainPutRec 30 ((100 : ℕ) : ℚ) ((50 : ℕ) : ℚ) (some (((12 : ℕ) : ℚ) / 100))] := rfl
    rw [hrow]
    exact List.mem_cons_self _ _
  have h4 : parse_percentage (row23.getD 4 "") = some (((10 : ℕ) : ℚ) / 100) := rfl
  exact ((C6_iv_default 30 row23 _ hm).1 rfl).2 (((10 : ℕ) : ℚ) / 100) h4 (by norm_num)

/-! ## Claims about option-type canonicalization (C8) -/

/-- A portfolio row whose option type is spelled `"c"`. -/
def prow_c : PortfolioRow :=
  { symbol := "ACME", position := "1", spot := "100", strike := "100",
    expiry := "1", volatility := "1", option_type := "c" }

/-- The record the portfolio parser produces from `prow_c`. -/
def o_c : RawOption :=
  { symbol := "ACME", strike := ((100 : ℕ) : ℚ), option_type := "c",
    market_price := none, implied_volatility := ((1 : ℕ) : ℚ),
    expiry_days := ((1 : ℕ) : ℚ) * 365, position := some ((1 : ℕ) : ℚ),
    spot_price := some ((100 : ℕ) : ℚ) }

/-- C8 counterexample: the portfolio parser only lowercases the source
option-type text, so the spelling `"c"` passes through and the produced
record's `option_type` is neither `"call"` nor `"put"` — refuting "always
one of the two canonical tags regardless of casing or spelling". -/
theorem C8_spelling_not_normalized_cex :
    ∃ o ∈ parse_portfolio_csv [prow_c],
      o.option_type ≠ "call" ∧ o.option_type ≠ "put" := by
  have h : parse_portfolio_csv [prow_c] = [o_c] := rfl
  rw [h]
  exact ⟨o_c, List.mem_singleton.mpr rfl, by decide, by decide⟩

/-- C8 amended: every record of the option-chain parser carries one of the
two canonical tags; every record of the portfolio parser carries the
lowercased source text — canonical regardless of casing when the source
spells `call`/`put`, but arbitrary spellings are not normalized. -/
theorem C8_option_type_provenance :
    (∀ (e : ℚ) (rows : List (List String)) o, o ∈ parse_option_chain_csv e rows →
       o.option_type = "call" ∨ o.option_type = "put") ∧
    (∀ (rows : List PortfolioRow) o, o ∈ parse_portfolio_csv rows →
       ∃ r ∈ rows, o.option_type = lowerString r.option_type) := by
  constructor
  · intro e rows o ho
    simp only [parse_option_chain_csv, List.mem_flatten, List.mem_map] at ho
    obtain ⟨l, ⟨row, -, rfl⟩, ho⟩ := ho
    obtain ⟨k, -, hco | hpo⟩ := mem_parse_chain_row ho
    · obtain ⟨v, -, -, rfl⟩ := hco
      exact Or.inl rfl
    · obtain ⟨v, -, -, rfl⟩ := hpo
      exact Or.inr rfl
  · intro rows o ho
    simp only [parse_portfolio_csv, List.mem_filterMap] at ho
    obtain ⟨r, hr, h⟩ := ho
    exact ⟨r, hr, (parse_portfolio_row_inv h).2⟩

/-- C8 witness: both parts applied — a chain-parsed record is canonical,
and a portfolio record with source spelling `"CALL"` comes out as the
lowercased `"call"`. -/
def prow_CALL : PortfolioRow :=
  { symbol := "ACME", position := "1", spot := "100", strike := "100",
    expiry := "1", volatility := "1", option_type := "CALL" }

/-- C8 witness theorem. -/
theorem C8_option_type_provenance_w :
    ((chainCallRec 30 ((100 : ℕ) : ℚ) ((100 : ℕ) : ℚ)
        (some (((10 : ℕ) : ℚ) / 100))).option_type = "call" ∨
     (chainCallRec 30 ((100 : ℕ) : ℚ) ((100 : ℕ) : ℚ)
        (some (((10 : ℕ) : ℚ) / 100))).option_type = "put") ∧
    (∃ r ∈ [prow_CALL],
      ({ o_c with option_type := "call" } : RawOption).option_type =
        lowerString r.option_type) := by
  constructor
  · refine C8_option_type_provenance.1 30 [row23] _ ?_
    have h : parse_option_chain_csv 30 [row23] =
        [chainCallRec 30 ((100 : ℕ) : ℚ) ((100 : ℕ) : ℚ) (some (((10 : ℕ) : ℚ) / 100)),
         chainPutRec 30 ((100 : ℕ) : ℚ) ((50 : ℕ) : ℚ) (some (((12 : ℕ) : ℚ) / 100))] := rfl
    rw [h]
    exact List.mem_cons_self _ _
  · refine C8_option_type_provenance.2 [prow_CALL] _ ?_
    have h : parse_portfolio_csv [prow_CALL] = [{ o_c with option_type := "call" }] := rfl
    rw [h]
    exact List.mem_singleton.mpr rfl

/-! ## Claim C10: portfolio records never carry market prices -/

/-- C10: every record of the portfolio parser has `market_price = None`;
every joined result of a portfolio run keeps that absence; hence whenever
the summary is produced, its mispricing subset is empty: zero options
with market prices, zero overpriced, zero underpriced, and an average
price difference of 0. -/
theorem C10_portfolio_mispricing_empty (rows : List PortfolioRow) (spot : ℚ)
    (oracle : RawOption → PricingResult) :
    (∀ o ∈ parse_portfolio_csv rows, o.market_price = none) ∧
    (∀ r ∈ analyze_results (parse_portfolio_csv rows) spot oracle,
       r.market_price = none) ∧
    ((analyze_results (parse_portfolio_csv rows) spot oracle).filter
        (fun r => r.calculation_success) ≠ [] →
      ∃ s, generate_summary (analyze_results (parse_portfolio_csv rows) spot oracle)
             spot = Except.ok s ∧
        s.market_analysis.options_with_market_prices = 0 ∧
        s.market_analysis.avg_price_difference_pct = 0 ∧
        s.market_analysis.overpriced_count = 0 ∧
        s.market_analysis.underpriced_count = 0) := by
  have h1 : ∀ o ∈ parse_portfolio_csv rows, o.market_price = none := by
    intro o ho
    simp only [parse_portfolio_csv, List.mem_filterMap] at ho
    obtain ⟨r, -, h⟩ := ho
    exact (parse_portfolio_row_inv h).1
  have h2 : ∀ r ∈ analyze_results (parse_portfolio_csv rows) spot oracle,
      r.market_price = none := by
    intro r hr
    simp only [analyze_results, List.mem_map] at hr
    obtain ⟨o, ho, rfl⟩ := hr
    exact h1 o ho
  refine ⟨h1, h2, fun hne => ?_⟩
  have hm : ((analyze_results (parse_portfolio_csv rows) spot oracle).filter
      (fun r => r.calculation_success)).filter (fun r => r.market_price.isSome) = [] := by
    rw [List.filter_eq_nil_iff]
    intro r hr
    have h := h2 r (List.mem_of_mem_filter hr)
    simp [h]
  unfold generate_summary
  rw [if_neg hne]
  exact ⟨_, rfl, by simp [hm], by simp [hm], by simp [hm], by simp [hm]⟩

/-- A well-formed portfolio row (all-integer numeric strings). -/
def prow_ok : PortfolioRow :=
  { symbol := "ACME", position := "2", spot := "100", strike := "100",
    expiry := "1", volatility := "1", option_type := "call" }

/-- An oracle stub that always succeeds. -/
def okOracle : RawOption → PricingResult :=
  fun _ => { theoretical_price := 4, delta := 1/2, gamma := 0, vega := 0,
             theta := 0, calculation_success := true }

/-- C10 witness: a one-row portfolio run with a successful oracle yields a
summary with an empty mispricing subset. -/
theorem C10_portfolio_mispricing_empty_w :
    ∃ s, generate_summary (analyze_results (parse_portfolio_csv [prow_ok]) 100 okOracle)
           100 = Except.ok s ∧
      s.market_analysis.options_with_market_prices = 0 ∧
      s.market_analysis.avg_price_difference_pct = 0 ∧
      s.market_analysis.overpriced_count = 0 ∧
      s.market_analysis.underpriced_count = 0 :=
  (C10_portfolio_mispricing_empty [prow_ok] 100 okOracle).2.2 (by decide)

/-! ## JSON rendering of the full report (C9, `output_results` json branch) -/

/-- A JSON value, as produced by `json.dumps` applied to the report dict:
objects keep insertion order of the Python dict keys. -/
inductive Json where
  | null
  | bool (b : Bool)
  | num (q : ℚ)
  | str (s : String)
  | arr (xs : List Json)
  | obj (fields : List (String × Json))

/-- The `metadata` sub-dict of an analysis report. -/
structure Metadata where
  filename : String
  format_type : String
  total_options : ℕ
  spot_price : ℚ
  risk_free_rate : ℚ
  analysis_time : String

/-- The dict returned by `analyze_csv`: metadata, per-option results in
input order, and the summary (a `PortfolioSummary` dict or the error
dict). -/
structure AnalysisReport where
  metadata : Metadata
  options : List OptionResult
  summary : Except String PortfolioSummary

/-- Encode an optional float: Python `None` becomes JSON `null`. -/
def encodeOptQ : Option ℚ → Json
  | none => Json.null
  | some q => Json.num q

/-- Encode one `OptionResult` dict with its insertion-ordered keys; the
two derived difference keys exist only when `market_price` was present
(exactly as `analyze_csv` only assigns them then). -/
def encodeResult (r : OptionResult) : Json :=
  Json.obj
    ([("symbol", Json.str r.symbol),
      ("option_type", Json.str r.option_type),
      ("strike", Json.num r.strike),
      ("spot_price", Json.num r.spot_price),
      ("expiry_days", Json.num r.expiry_days),
      ("implied_volatility", Json.num r.implied_volatility),
      ("market_price", encodeOptQ r.market_price),
      ("position", Json.num r.position),
      ("theoretical_price", Json.num r.theoretical_price),
      ("delta", Json.num r.delta),
      ("gamma", Json.num r.gamma),
      ("vega", Json.num r.vega),
      ("theta", Json.num r.theta),
      ("calculation_success", Json.bool r.calculation_success)]
     ++ match r.market_price with
        | some _ => [("price_difference", encodeOptQ r.price_difference),
                     ("price_difference_pct", encodeOptQ r.price_difference_pct)]
        | none => [])

/-- Encode the metadata dict. -/
def encodeMetadata (m : Metadata) : Json :=
  Json.obj
    [("filename", Json.str m.filename),
     ("format_type", Json.str m.format_type),
     ("total_options", Json.num (m.total_options : ℚ)),
     ("spot_price", Json.num m.spot_price),
     ("risk_free_rate", Json.num m.risk_free_rate),
     ("analysis_time", Json.str m.analysis_time)]

/-- Encode the summary: either the `{'error': ...}` dict or the three
nested metric dicts. -/
def encodeSummary : Except String PortfolioSummary → Json
  | Except.error msg => Json.obj [("error", Json.str msg)]
  | Except.ok s =>
      Json.obj
        [("portfolio_metrics", Json.obj
           [("total_value", Json.num s.portfolio_metrics.total_value),
            ("net_delta", Json.num s.portfolio_metrics.net_delta),
            ("net_gamma", Json.num s.portfolio_metrics.net_gamma),
            ("net_vega", Json.num s.portfolio_metrics.net_vega),
            ("net_theta", Json.num s.portfolio_metrics.net_theta),
            ("delta_adjusted_value", Json.num s.portfolio_metrics.delta_adjusted_value)]),
         ("market_analysis", Json.obj
           [("options_with_market_prices",
               Json.num (s.market_analysis.options_with_market_prices : ℚ)),
            ("avg_price_difference_pct", Json.num s.market_analysis.avg_price_difference_pct),
            ("overpriced_count", Json.num (s.market_analysis.overpriced_count : ℚ)),
            ("underpriced_count", Json.num (s.market_analysis.underpriced_count : ℚ))]),
         ("risk_metrics", Json.obj
           [("portfolio_delta_risk", Json.num s.risk_metrics.portfolio_delta_risk),
            ("portfolio_gamma_risk", Json.num s.risk_metrics.portfolio_gamma_risk),
            ("portfolio_vega_risk", Json.num s.risk_metrics.portfolio_vega_risk),
            ("portfolio_theta_decay", Json.num s.risk_metrics.portfolio_theta_decay)])]

/-- The JSON rendering of the whole report: metadata, the FULL options
array in input order (no truncation, unlike the table formatter), and the
summary. -/
def encodeReport (rep : AnalysisReport) : Json :=
  Json.obj
    [("metadata", encodeMetadata rep.metadata),
     ("options", Json.arr (rep.options.map encodeResult)),
     ("summary", encodeSummary rep.summary)]

/-- Decode an optional float. -/
def decodeOptQ : Json → Option (Option ℚ)
  | Json.null => some none
  | Json.num q => some (some q)
  | _ => none

/-- Decode a JSON number holding a Python `int` (a count such as a
length) back to the natural it encodes. -/
def decodeNat : Json → Option ℕ
  | Json.num q => some q.num.toNat
  | _ => none

/-- Decode one `OptionResult` object (with or without the two derived
difference keys). -/
def decodeResult : Json → Option OptionResult
  | Json.obj [("symbol", Json.str symbol), ("option_type", Json.str option_type),
      ("strike", Json.num strike), ("spot_price", Json.num spot_price),
      ("expiry_days", Json.num expiry_days),
      ("implied_volatility", Json.num implied_volatility),
      ("market_price", mp), ("position", Json.num position),
      ("theoretical_price", Json.num theoretical_price),
      ("delta", Json.num delta), ("gamma", Json.num gamma),
      ("vega", Json.num vega), ("theta", Json.num theta),
      ("calculation_success", Json.bool calculation_success),
      ("price_difference", pd), ("price_difference_pct", pdp)] =>
      match decodeOptQ mp, decodeOptQ pd, decodeOptQ pdp with
      | some mp, some pd, some pdp =>
          some { symbol := symbol, option_type := option_type, strike := strike,
                 spot_price := spot_price, expiry_days := expiry_days,
                 implied_volatility := implied_volatility, market_price := mp,
                 position := position, theoretical_price := theoretical_price,
                 delta := delta, gamma := gamma, vega := vega, theta := theta,
                 calculation_success := calculation_success,
                 price_difference := pd, price_difference_pct := pdp }
      | _, _, _ => none
  | Json.obj [("symbol", Json.str symbol), ("option_type", Json.str option_type),
      ("strike", Json.num strike), ("spot_price", Json.num spot_price),
      ("expiry_days", Json.num expiry_days),
      ("implied_volatility", Json.num implied_volatility),
      ("market_price", mp), ("position", Json.num position),
      ("theoretical_price", Json.num theoretical_price),
      ("delta", Json.num delta), ("gamma", Json.num gamma),
      ("vega", Json.num vega), ("theta", Json.num theta),
      ("calculation_success", Json.bool calculation_success)] =>
      (decodeOptQ mp).map fun mp =>
        { symbol := symbol, option_type := option_type, strike := strike,
          spot_price := spot_price, expiry_days := expiry_days,
          implied_volatility := implied_volatility, market_price := mp,
          position := position, theoretical_price := theoretical_price,
          delta := delta, gamma := gamma, vega := vega, theta := theta,
          calculation_success := calculation_success,
          price_difference := none, price_difference_pct := none }
  | _ => none

/-- Decode a list of `OptionResult` objects, in order. -/
def decodeResults : List Json → Option (List OptionResult)
  | [] => some []
  | j :: js =>
      match decodeResult j, decodeResults js with
      | some r, some rs => some (r :: rs)
      | _, _ => none

/-- Decode the metadata object. -/
def decodeMetadata : Json → Option Metadata
  | Json.obj [("filename", Json.str filename), ("format_type", Json.str format_type),
      ("total_options", t), ("spot_price", Json.num spot_price),
      ("risk_free_rate", Json.num risk_free_rate),
      ("analysis_time", Json.str analysis_time)] =>
      (decodeNat t).map fun total_options =>
        { filename := filename, format_type := format_type,
          total_options := total_options, spot_price := spot_price,
          risk_free_rate := risk_free_rate, analysis_time := analysis_time }
  | _ => none

/-- Decode the summary object. -/
def decodeSummary : Json → Option (Except String PortfolioSummary)
  | Json.obj [("error", Json.str msg)] => some (Except.error msg)
  | Json.obj
      [("portfolio_metrics", Json.obj
         [("total_value", Json.num total_value), ("net_delta", Json.num net_delta),
          ("net_gamma", Json.num net_gamma), ("net_vega", Json.num net_vega),
          ("net_theta", Json.num net_theta),
          ("delta_adjusted_value", Json.num delta_adjusted_value)]),
       ("market_analysis", Json.obj
         [("options_with_market_prices", c1),
          ("avg_price_difference_pct", Json.num avg),
          ("overpriced_count", c2), ("underpriced_count", c3)]),
       ("risk_metrics", Json.obj
         [("portfolio_delta_risk", Json.num portfolio_delta_risk),
          ("portfolio_gamma_risk", Json.num portfolio_gamma_risk),
          ("portfolio_vega_risk", Json.num portfolio_vega_risk),
          ("portfolio_theta_decay", Json.num portfolio_theta_decay)])] =>
      match decodeNat c1, decodeNat c2, decodeNat c3 with
      | some n1, some n2, some n3 =>
          some (Except.ok
            { portfolio_metrics :=
                { total_value := total_value, net_delta := net_delta,
                  net_gamma := net_gamma, net_vega := net_vega,
                  net_theta := net_theta,
                  delta_adjusted_value := delta_adjusted_value }
              market_analysis :=
                { options_with_market_prices := n1,
                  avg_price_difference_pct := avg,
                  overpriced_count := n2, underpriced_count := n3 }
              risk_metrics :=
                { portfolio_delta_risk := portfolio_delta_risk,
                  portfolio_gamma_risk := portfolio_gamma_risk,
                  portfolio_vega_risk := portfolio_vega_risk,
                  portfolio_theta_decay := portfolio_theta_decay } })
      | _, _, _ => none
  | _ => none

/-- Decode a whole report. -/
def decodeReport : Json → Option AnalysisReport
  | Json.obj [("metadata", m), ("options", Json.arr items), ("summary", s)] =>
      match decodeMetadata m, decodeResults items, decodeSummary s with
      | some metadata, some options, some summary =>
          some { metadata := metadata, options := options, summary := summary }
      | _, _, _ => none
  | _ => none

/-- Optional floats decode back. -/
theorem decodeOptQ_encodeOptQ (x : Option ℚ) : decodeOptQ (encodeOptQ x) = some x := by
  cases x <;> rfl

/-- Integer-valued JSON numbers decode back to the integer. -/
theorem decodeNat_natCast (n : ℕ) : decodeNat (Json.num (n : ℚ)) = some n := rfl

/-- One result object decodes back exactly, for the well-formed records
the pipeline produces (difference fields present exactly with
`market_price`). -/
theorem decodeResult_encodeResult (r : OptionResult)
    (h : r.market_price = none →
       r.price_difference = none ∧ r.price_difference_pct = none) :
    decodeResult (encodeResult r) = some r := by
  obtain ⟨symbol, option_type, strike, spot_price, expiry_days, implied_volatility,
    mp, position, tp, delta, gamma, vega, theta, cs, pd, pdp⟩ := r
  cases mp with
  | none =>
      obtain ⟨h1, h2⟩ := h rfl
      subst h1
      subst h2
      rfl
  | some m => cases pd <;> cases pdp <;> rfl

/-- A mapped-and-encoded result list decodes back in order. -/
theorem decodeResults_map_encode (l : List OptionResult)
    (h : ∀ r ∈ l, r.market_price = none →
       r.price_difference = none ∧ r.price_difference_pct = none) :
    decodeResults (l.map encodeResult) = some l := by
  induction l with
  | nil => rfl
  | cons r rs ih =>
      simp only [List.map_cons, decodeResults]
      rw [decodeResult_encodeResult r (h r (List.mem_cons_self r rs)),
        ih (fun x hx => h x (List.mem_cons_of_mem r hx))]

/-- The metadata object decodes back. -/
theorem decodeMetadata_encodeMetadata (m : Metadata) :
    decodeMetadata (encodeMetadata m) = some m := by
  obtain ⟨f, ft, n, sp, rf, t⟩ := m
  rfl

/-- The summary object decodes back. -/
theorem decodeSummary_encodeSummary (s : Except String PortfolioSummary) :
    decodeSummary (encodeSummary s) = some s := by
  cases s with
  | error msg => rfl
  | ok s =>
      obtain ⟨⟨tv, nd, ng, nv, nt, dav⟩, ⟨c1, avg, c2, c3⟩, ⟨r1, r2, r3, r4⟩⟩ := s
      rfl

/-- C9: rendering an `AnalysisReport` to JSON serializes the full report —
the options array holds one object per `OptionResult`, in input order,
with stable field names and no truncation — and decoding reproduces
every field of every `OptionResult` (and the metadata and summary)
exactly. Valid reports are those the pipeline produces: the derived
difference fields are present exactly when `market_price` is. -/
theorem C9_json_roundtrip (rep : AnalysisReport)
    (h : ∀ r ∈ rep.options, r.market_price = none →
       r.price_difference = none ∧ r.price_difference_pct = none) :
    decodeReport (encodeReport rep) = some rep ∧
    encodeReport rep = Json.obj
      [("metadata", encodeMetadata rep.metadata),
       ("options", Json.arr (rep.options.map encodeResult)),
       ("summary", encodeSummary rep.summary)] := by
  refine ⟨?_, rfl⟩
  obtain ⟨m, os, su⟩ := rep
  simp only [encodeReport, decodeReport]
  rw [decodeMetadata_encodeMetadata, decodeResults_map_encode os h,
    decodeSummary_encodeSummary]

/-- A concrete two-option report (one record with a market price and its
difference fields, one without). -/
def rep0 : AnalysisReport :=
  { metadata :=
      { filename := "sample.csv", format_type := "portfolio",
        total_options := 2, spot_price := 100, risk_free_rate := 1/20,
        analysis_time := "2025-08-14T00:00:00" },
    options := [okRes, failRes],
    summary := generate_summary [okRes, failRes] 100 }

/-- C9 witness: the concrete report round-trips through JSON. -/
theorem C9_json_roundtrip_w : decodeReport (encodeReport rep0) = some rep0 :=
  (C9_json_roundtrip rep0 (by decide)).1

end BSM
